import Mathlib

/-!
Verification development for the Windows print-spooler backend
(`brother_ql/backends/windows_printer.py`).

The Python module is shallowly embedded: the mutable backend object becomes
an explicit `Session` state, the winspool API becomes an oracle `WinEnv`
describing the outcome of each OS call, and every operation additionally
returns the list of OS calls it performed and the warnings it logged, so
that "invoked exactly once" and "logged, not raised" properties can be
stated directly.
-/

namespace BrotherQLWin

/-- The winspool / registry calls the backend can make. -/
inductive OSCall
  | openPrinter
  | closePrinter
  | startDoc
  | startPage
  | writePrinter
  | endPage
  | endDoc
deriving DecidableEq, Repr

/-- Errors raised on the write path (`OSError` / `IOError` /
`UnicodeEncodeError` in the source, distinguished by their messages). -/
inductive WriteError
  | openFailed (name : List Char)
  | startDocFailed
  | startPageFailed
  | writeFailed (written : Nat) (requested : Nat)
  | encodeError
deriving DecidableEq, Repr

/-- Errors raised by `__init__` (`NotImplementedError` / `ValueError`
in the source, distinguished by their messages). -/
inductive InitError
  | unsupportedIdentifier
  | invalidDeviceName
  | deviceUnreachable (name : List Char)
deriving DecidableEq, Repr

/-- Oracle for the outcomes of the winspool calls made during one
operation: `OpenPrinterW`, `StartDocPrinterW` (a job id, 0 on failure),
`StartPagePrinter`, `WritePrinter` (a success flag plus the byte count the
OS stores in `written`), `EndPagePrinter` and `EndDocPrinter`. -/
structure WinEnv where
  openResult : Bool
  startDocResult : Nat
  startPageResult : Bool
  writeResult : Bool
  writtenCount : Nat
  endPageResult : Bool
  endDocResult : Bool
deriving DecidableEq, Repr

/-- The mutable state of a `BrotherQLBackendWindows` object:
`self.printer_name` and `self.hprinter`.  In the source `self.hprinter`
is set to a fresh `wintypes.HANDLE()` before `OpenPrinterW` is called, so
it is non-`None` after any open attempt, successful or not; `some ()`
models exactly "`self.hprinter is not None`". -/
structure Session where
  printer_name : List Char
  hprinter : Option Unit
deriving DecidableEq, Repr

/-- A `_write` payload: Python `bytes` or Python `str` (a list of
Unicode code points). -/
inductive PyData
  | bytes (bs : List Nat)
  | str (cs : List Nat)
deriving DecidableEq, Repr

/-- A `device_specifier` argument: either a Python string or any
non-string value. -/
inductive Identifier
  | str (s : List Char)
  | nonStr
deriving DecidableEq, Repr

/-- Result, updated session and OS-call trace of one step. -/
structure StepOutcome where
  result : Except WriteError Unit
  session : Session
  trace : List OSCall
deriving Repr

/-- Result, updated session, OS-call trace and logged warnings of a
`_write` call. -/
structure WriteOutcome where
  result : Except WriteError Unit
  session : Session
  trace : List OSCall
  warnings : List (List Char)
deriving Repr

/-- The scheme prefix of a device specifier. -/
def winScheme : List Char := "windows://".toList

/-- Python `s.startswith(p)` on strings modelled as `List Char`. -/
def pyStartsWith : List Char → List Char → Bool
  | [], _ => true
  | _ :: _, [] => false
  | p :: ps, c :: cs => p = c && pyStartsWith ps cs

/-- The identifier-resolution logic of `__init__` for a string
`device_specifier`: strip the `'windows://'` prefix
(`device_specifier[10:]`) when present, else keep the string verbatim. -/
def resolveDeviceName (device_specifier : List Char) : List Char :=
  if pyStartsWith winScheme device_specifier then device_specifier.drop 10
  else device_specifier

/-- Source `_open_printer`: no-op if `self.hprinter is not None`; otherwise set
`self.hprinter` to a fresh handle, call `OpenPrinterW`, and raise
`OSError` if it reports failure. -/
def Session.open_printer (s : Session) (env : WinEnv) : StepOutcome :=
  match s.hprinter with
  | some _ => ⟨Except.ok (), s, []⟩
  | none =>
    let s1 : Session := ⟨s.printer_name, some ()⟩
    if env.openResult then ⟨Except.ok (), s1, [OSCall.openPrinter]⟩
    else ⟨Except.error (WriteError.openFailed s.printer_name), s1, [OSCall.openPrinter]⟩

/-- Source `_close_printer`: if a handle is held, call `ClosePrinter` and set
`self.hprinter = None`; otherwise do nothing. -/
def Session.close_printer (s : Session) : Session × List OSCall :=
  match s.hprinter with
  | some _ => (⟨s.printer_name, none⟩, [OSCall.closePrinter])
  | none => (s, [])

/-- Source `BrotherQLBackendWindows.__init__(device_specifier)`: reject
non-strings (`NotImplementedError`), resolve the printer name, reject an
empty name (`ValueError('Invalid printer name')`), then validate
reachability by opening and immediately closing the printer; an open
failure becomes `ValueError('Could not open printer ...')`. -/
def initSession (device_specifier : Identifier) (env : WinEnv) :
    Except InitError Session × List OSCall :=
  match device_specifier with
  | Identifier.nonStr => (Except.error InitError.unsupportedIdentifier, [])
  | Identifier.str ds =>
    let name := resolveDeviceName ds
    if name = [] then (Except.error InitError.invalidDeviceName, [])
    else
      let s0 : Session := ⟨name, none⟩
      let o := Session.open_printer s0 env
      match o.result with
      | Except.ok _ =>
        let c := Session.close_printer o.session
        (Except.ok c.1, o.trace ++ c.2)
      | Except.error _ => (Except.error (InitError.deviceUnreachable name), o.trace)

/-- Source `data.encode('latin-1')`: succeeds iff every code point is below 256,
mapping each code point to itself; otherwise raises
`UnicodeEncodeError`. -/
def encodeLatin1 (cs : List Nat) : Except WriteError (List Nat) :=
  if cs.all (fun c => c < 256) then Except.ok cs else Except.error WriteError.encodeError

/-- The `isinstance(data, str)` branch of `_write`: encode text payloads,
pass byte payloads through. -/
def toPayload (data : PyData) : Except WriteError (List Nat) :=
  match data with
  | PyData.bytes bs => Except.ok bs
  | PyData.str cs => encodeLatin1 cs

/-- The warning message logged when `EndDocPrinter` reports failure. -/
def endDocWarning : List Char := "EndDocPrinter failed".toList

/-- The warning message logged when `EndPagePrinter` reports failure. -/
def endPageWarning : List Char := "EndPagePrinter failed".toList

/-- The body of `_write` from `StartDocPrinterW` on: start the document
(raise `IOError` if the job id is 0), then inside a `try`/`finally` start
the page (raise on failure), call `WritePrinter` (raise on failure, the
message carrying `written.value` and `len(data)`), end the page (failure
only logged); the `finally` block always ends the document once the
document was started, logging (never raising) its failure. -/
def writeJob (s : Session) (env : WinEnv) (payload : List Nat)
    (tr : List OSCall) : WriteOutcome :=
  let tr1 := tr ++ [OSCall.startDoc]
  if env.startDocResult = 0 then
    ⟨Except.error WriteError.startDocFailed, s, tr1, []⟩
  else
    let tr2 := tr1 ++ [OSCall.startPage]
    if env.startPageResult = false then
      let tr3 := tr2 ++ [OSCall.endDoc]
      let ws := if env.endDocResult then [] else [endDocWarning]
      ⟨Except.error WriteError.startPageFailed, s, tr3, ws⟩
    else
      let tr3 := tr2 ++ [OSCall.writePrinter]
      if env.writeResult = false then
        let tr4 := tr3 ++ [OSCall.endDoc]
        let ws := if env.endDocResult then [] else [endDocWarning]
        ⟨Except.error (WriteError.writeFailed env.writtenCount payload.length), s, tr4, ws⟩
      else
        let tr4 := tr3 ++ [OSCall.endPage]
        let ws1 : List (List Char) := if env.endPageResult then [] else [endPageWarning]
        let tr5 := tr4 ++ [OSCall.endDoc]
        let ws := ws1 ++ (if env.endDocResult then [] else [endDocWarning])
        ⟨Except.ok (), s, tr5, ws⟩

/-- Source `_write(data)`: open the printer if needed, encode a text payload,
then run the document/page/write/end sequence.  The outer
`except ... raise` clause only logs and re-raises, so it neither changes
the error nor closes the handle. -/
def Session.write (s : Session) (env : WinEnv) (data : PyData) : WriteOutcome :=
  let o := Session.open_printer s env
  match o.result with
  | Except.error e => ⟨Except.error e, o.session, o.trace, []⟩
  | Except.ok _ =>
    match toPayload data with
    | Except.error e => ⟨Except.error e, o.session, o.trace, []⟩
    | Except.ok payload => writeJob o.session env payload o.trace

/-- Source `_read(length=32)`: always returns `bytes()`. -/
def Session.read (s : Session) (length : Int) : List Nat := []

/-- Source `dispose()`: `self._close_printer()` inside a bare `except: pass`
(our `close_printer` never raises, so the guard is inert). -/
def Session.dispose (s : Session) : Session × List OSCall :=
  Session.close_printer s

/-- Source `__del__()`: calls `dispose()`. -/
def Session.del (s : Session) : Session × List OSCall :=
  Session.dispose s

/-- Oracle for one `list_available_devices()` call: `importFails` models
the outer `try` failing before/around the registry work (e.g. `import
winreg` raising), `openKeyFails` models `winreg.OpenKey` raising so that
no printer name is collected, and `names` are the printer names the
registry enumeration yields. -/
structure RegistryOracle where
  importFails : Bool
  openKeyFails : Bool
  names : List (List Char)
deriving Repr

/-- Python `sub in s` on strings modelled as `List Char`: `sub` occurs as
a contiguous substring of `s`. -/
def pyContains (sub : List Char) : List Char → Bool
  | [] => sub.isEmpty
  | c :: cs => pyStartsWith sub (c :: cs) || pyContains sub cs

/-- The registry filter of `list_available_devices`:
`'Brother' in printer_name or 'QL' in printer_name`. -/
def matchesBrother (name : List Char) : Bool :=
  pyContains "Brother".toList name || pyContains "QL".toList name

/-- An enumeration entry `{'identifier': ..., 'instance': None}`. -/
structure Device where
  identifier : List Char
  instanceData : Option Unit
deriving DecidableEq, Repr

/-- Source `f'windows://{printer_name}'`. -/
def mkIdentifier (name : List Char) : List Char := winScheme ++ name

/-- The hard-coded `common_names` fallback of `list_available_devices`. -/
def commonNames : List (List Char) :=
  ["Brother QL-500".toList, "Brother QL-550".toList,
   "Brother QL-600".toList, "Brother QL-700".toList]

/-- Source `list_available_devices()`: enumerate registry printer names and keep
those matching the Brother/QL filter (a registry failure is swallowed and
leaves the list empty); if no device was collected, fall back to the four
`common_names`; any unexpected outer error yields `[]`. -/
def list_available_devices (r : RegistryOracle) : List Device :=
  if r.importFails then []
  else
    let collected := if r.openKeyFails then [] else r.names.filter matchesBrother
    let devices := collected.map (fun n => ⟨mkIdentifier n, none⟩)
    if devices.isEmpty then commonNames.map (fun n => ⟨mkIdentifier n, none⟩)
    else devices


/-! ## Helper lemmas -/

theorem pyStartsWith_append_drop (p : List Char) :
    ∀ s : List Char, pyStartsWith p s = true → p ++ s.drop p.length = s := by
  induction p with
  | nil => intro s _; simp
  | cons a ps ih =>
    intro s h
    cases s with
    | nil => simp [pyStartsWith] at h
    | cons b bs =>
      simp only [pyStartsWith, Bool.and_eq_true, decide_eq_true_eq] at h
      obtain ⟨h1, h2⟩ := h
      subst h1
      simpa using ih bs h2

/-! ## Claim theorems -/

/-- C5: an identifier with the `'windows://'` scheme prefix resolves to
the identifier with exactly that prefix removed; an identifier without
the prefix resolves to itself; and when the resolved name is empty,
construction fails with `InvalidDeviceName`. -/
theorem resolve_device_name_spec (s : List Char) :
    (pyStartsWith winScheme s = true → winScheme ++ resolveDeviceName s = s) ∧
    (pyStartsWith winScheme s = false → resolveDeviceName s = s) ∧
    (resolveDeviceName s = [] → ∀ env : WinEnv,
      (initSession (Identifier.str s) env).1 = Except.error InitError.invalidDeviceName) := by
  refine ⟨?_, ?_, ?_⟩
  · intro h
    have hlen : winScheme.length = 10 := by decide
    simp only [resolveDeviceName, h, if_true]
    rw [← hlen]
    exact pyStartsWith_append_drop winScheme s h
  · intro h
    simp [resolveDeviceName, h]
  · intro h env
    simp [initSession, h]

/-- Witness for C5 at the concrete identifiers
`"windows://Brother QL-500"`, `"Brother QL-500"` and `"windows://"`. -/
theorem resolve_device_name_spec_witness :
    (winScheme ++ resolveDeviceName ("windows://Brother QL-500".toList)
        = "windows://Brother QL-500".toList) ∧
    resolveDeviceName ("Brother QL-500".toList) = "Brother QL-500".toList ∧
    (initSession (Identifier.str ("windows://".toList))
        ⟨true, 1, true, true, 0, true, true⟩).1
      = Except.error InitError.invalidDeviceName :=
  ⟨(resolve_device_name_spec _).1 (by decide),
   (resolve_device_name_spec _).2.1 (by decide),
   (resolve_device_name_spec _).2.2 (by decide) ⟨true, 1, true, true, 0, true, true⟩⟩

/-- C8: a non-string `device_specifier` is rejected with
`UnsupportedIdentifier` and no OS call (open, close or enumeration) is
made. -/
theorem non_string_identifier_rejected (env : WinEnv) :
    initSession Identifier.nonStr env
      = (Except.error InitError.unsupportedIdentifier, []) := rfl

/-- C9: `_read` returns the empty byte sequence for every requested
length, including zero and negative values, and raises no error. -/
theorem read_always_empty (s : Session) (length : Int) :
    Session.read s length = [] := rfl

/-- C7: source `_open_printer` is idempotent: starting from an idle
session, a second open right after the first performs no further OS open
call and leaves the session state unchanged. -/
theorem open_printer_idempotent (s : Session) (env : WinEnv) (h : s.hprinter = none) :
    ((Session.open_printer s env).trace ++
        (Session.open_printer (Session.open_printer s env).session env).trace).count
        OSCall.openPrinter = 1 ∧
    Session.open_printer (Session.open_printer s env).session env
      = ⟨Except.ok (), (Session.open_printer s env).session, []⟩ := by
  obtain ⟨pn, hp⟩ := s
  simp only at h
  subst h
  cases hopen : env.openResult <;>
    simp [Session.open_printer, hopen]

/-- Witness for C7 at a concrete idle session and a succeeding open. -/
theorem open_printer_idempotent_witness :
    ((Session.open_printer ⟨"Brother QL-500".toList, none⟩
          ⟨true, 1, true, true, 0, true, true⟩).trace ++
        (Session.open_printer
          (Session.open_printer ⟨"Brother QL-500".toList, none⟩
            ⟨true, 1, true, true, 0, true, true⟩).session
          ⟨true, 1, true, true, 0, true, true⟩).trace).count OSCall.openPrinter = 1 ∧
    Session.open_printer
        (Session.open_printer ⟨"Brother QL-500".toList, none⟩
          ⟨true, 1, true, true, 0, true, true⟩).session
        ⟨true, 1, true, true, 0, true, true⟩
      = ⟨Except.ok (),
         (Session.open_printer ⟨"Brother QL-500".toList, none⟩
           ⟨true, 1, true, true, 0, true, true⟩).session, []⟩ :=
  open_printer_idempotent ⟨"Brother QL-500".toList, none⟩
    ⟨true, 1, true, true, 0, true, true⟩ rfl

/-- C6: when the registry query fails outright or the Brother/QL filter
matches nothing, enumeration returns the four well-known names, each with
the scheme prefix, in their fixed order; and the enumerator never throws:
an unexpected outer failure yields the empty list. -/
theorem list_devices_fallback (r : RegistryOracle) :
    (r.importFails = true → list_available_devices r = []) ∧
    (r.importFails = false →
      (r.openKeyFails = true ∨ r.names.filter matchesBrother = []) →
      list_available_devices r
        = [⟨"windows://Brother QL-500".toList, none⟩,
           ⟨"windows://Brother QL-550".toList, none⟩,
           ⟨"windows://Brother QL-600".toList, none⟩,
           ⟨"windows://Brother QL-700".toList, none⟩]) := by
  refine ⟨?_, ?_⟩
  · intro h
    simp [list_available_devices, h]
  · intro h1 h2
    rcases h2 with hk | hf <;>
      cases hok : r.openKeyFails <;>
        simp_all [list_available_devices] <;> decide

/-- Witness for C6: a throwing registry query and a query with no
matching names both yield the fallback list; an outer failure yields
the empty list. -/
theorem list_devices_fallback_witness :
    (list_available_devices ⟨true, false, []⟩ = []) ∧
    list_available_devices ⟨false, true, ["HP LaserJet".toList]⟩
      = [⟨"windows://Brother QL-500".toList, none⟩,
         ⟨"windows://Brother QL-550".toList, none⟩,
         ⟨"windows://Brother QL-600".toList, none⟩,
         ⟨"windows://Brother QL-700".toList, none⟩] :=
  ⟨(list_devices_fallback _).1 rfl,
   (list_devices_fallback _).2 rfl (Or.inl rfl)⟩

/-- When the open step succeeds (handle already held, or `OpenPrinterW`
succeeds), a `_write` call is the job sequence run on the opened session,
after a preamble of OS calls that contains no job-transport call. -/
theorem write_eq_writeJob (s : Session) (env : WinEnv) (data : PyData) (p : List Nat)
    (hopen : s.hprinter = some () ∨ env.openResult = true)
    (hp : toPayload data = Except.ok p) :
    ∃ tr0 : List OSCall,
      tr0.count OSCall.startDoc = 0 ∧ tr0.count OSCall.startPage = 0 ∧
      tr0.count OSCall.writePrinter = 0 ∧ tr0.count OSCall.endPage = 0 ∧
      tr0.count OSCall.endDoc = 0 ∧ tr0.count OSCall.closePrinter = 0 ∧
      Session.write s env data = writeJob ⟨s.printer_name, some ()⟩ env p tr0 := by
  obtain ⟨pn, hpr⟩ := s
  rcases hpr with _ | ⟨⟩
  · have hop : env.openResult = true := by
      rcases hopen with h | h
      · exact absurd h (by simp)
      · exact h
    refine ⟨[OSCall.openPrinter], by decide, by decide, by decide, by decide, by decide,
      by decide, ?_⟩
    simp [Session.write, Session.open_printer, hop, hp]
  · refine ⟨[], by decide, by decide, by decide, by decide, by decide, by decide, ?_⟩
    simp [Session.write, Session.open_printer, hp]

/-- C3: once begin-document has succeeded, end-document is attempted
exactly once before the write call returns or raises, even when
begin-page or transfer-bytes failed; an end-document failure is logged
as a warning and never changes the result surfaced to the caller. -/
theorem end_doc_always_attempted (s : Session) (env : WinEnv) (data : PyData)
    (hopen : s.hprinter = some () ∨ env.openResult = true)
    (henc : ∃ p, toPayload data = Except.ok p)
    (hdoc : env.startDocResult ≠ 0) :
    (Session.write s env data).trace.count OSCall.endDoc = 1 ∧
    (env.endDocResult = false → endDocWarning ∈ (Session.write s env data).warnings) ∧
    (∀ b : Bool,
      (Session.write s ⟨env.openResult, env.startDocResult, env.startPageResult,
          env.writeResult, env.writtenCount, env.endPageResult, b⟩ data).result
        = (Session.write s env data).result) := by
  obtain ⟨p, hp⟩ := henc
  obtain ⟨tr0, h1, h2, h3, h4, h5, h6, heq⟩ := write_eq_writeJob s env data p hopen hp
  obtain ⟨tr0b, g1, g2, g3, g4, g5, g6, heqb⟩ :=
    write_eq_writeJob s ⟨env.openResult, env.startDocResult, env.startPageResult,
      env.writeResult, env.writtenCount, env.endPageResult, false⟩ data p
      (by rcases hopen with h | h
          · exact Or.inl h
          · exact Or.inr h) hp
  obtain ⟨tr0c, k1, k2, k3, k4, k5, k6, heqc⟩ :=
    write_eq_writeJob s ⟨env.openResult, env.startDocResult, env.startPageResult,
      env.writeResult, env.writtenCount, env.endPageResult, true⟩ data p
      (by rcases hopen with h | h
          · exact Or.inl h
          · exact Or.inr h) hp
  obtain ⟨eo, sd, sp, wr, wc, ep, ed⟩ := env
  simp only at hdoc heq heqb heqc
  refine ⟨?_, ?_, ?_⟩
  · rw [heq]
    cases sp <;> cases wr <;> cases ep <;> cases ed <;>
      simp [writeJob, hdoc, List.count_append, h5]
  · intro hw
    simp only at hw
    subst hw
    rw [heq]
    cases sp <;> cases wr <;> cases ep <;>
      simp [writeJob, hdoc]
  · intro b
    rw [heq]
    cases b
    · rw [heqb]
      cases sp <;> cases wr <;> cases ep <;> cases ed <;>
        simp [writeJob, hdoc]
    · rw [heqc]
      cases sp <;> cases wr <;> cases ep <;> cases ed <;>
        simp [writeJob, hdoc]

/-- Witness for C3: a write whose begin-page fails and whose end-document
also fails, on a concrete session and payload. -/
theorem end_doc_always_attempted_witness :
    (Session.write ⟨"Brother QL-500".toList, none⟩
        ⟨true, 1, false, true, 0, true, false⟩
        (PyData.bytes [1, 2, 3])).trace.count OSCall.endDoc = 1 ∧
    (false = false → endDocWarning ∈
      (Session.write ⟨"Brother QL-500".toList, none⟩
        ⟨true, 1, false, true, 0, true, false⟩
        (PyData.bytes [1, 2, 3])).warnings) ∧
    (∀ b : Bool,
      (Session.write ⟨"Brother QL-500".toList, none⟩
          ⟨true, 1, false, true, 0, true, b⟩ (PyData.bytes [1, 2, 3])).result
        = (Session.write ⟨"Brother QL-500".toList, none⟩
            ⟨true, 1, false, true, 0, true, false⟩ (PyData.bytes [1, 2, 3])).result) :=
  end_doc_always_attempted ⟨"Brother QL-500".toList, none⟩
    ⟨true, 1, false, true, 0, true, false⟩ (PyData.bytes [1, 2, 3])
    (Or.inr rfl) ⟨[1, 2, 3], rfl⟩ (by decide)

/-- C4: when begin-document fails, the write call fails with the
job-start error, none of begin-page, transfer-bytes or end-page is
invoked, and the handle is not closed, so the session stays openable. -/
theorem start_doc_fail_no_further_steps (s : Session) (env : WinEnv) (data : PyData)
    (hopen : s.hprinter = some () ∨ env.openResult = true)
    (henc : ∃ p, toPayload data = Except.ok p)
    (hdoc : env.startDocResult = 0) :
    (Session.write s env data).result = Except.error WriteError.startDocFailed ∧
    (Session.write s env data).trace.count OSCall.startPage = 0 ∧
    (Session.write s env data).trace.count OSCall.writePrinter = 0 ∧
    (Session.write s env data).trace.count OSCall.endPage = 0 ∧
    (Session.write s env data).trace.count OSCall.closePrinter = 0 ∧
    (Session.write s env data).session.hprinter = some () := by
  obtain ⟨p, hp⟩ := henc
  obtain ⟨tr0, h1, h2, h3, h4, h5, h6, heq⟩ := write_eq_writeJob s env data p hopen hp
  rw [heq]
  simp [writeJob, hdoc, List.count_append, h2, h3, h4, h6]

/-- Witness for C4: a write whose begin-document fails, on a concrete
session and payload. -/
theorem start_doc_fail_no_further_steps_witness :
    (Session.write ⟨"Brother QL-500".toList, none⟩
        ⟨true, 0, true, true, 0, true, true⟩
        (PyData.bytes [1, 2, 3])).result = Except.error WriteError.startDocFailed ∧
    (Session.write ⟨"Brother QL-500".toList, none⟩
        ⟨true, 0, true, true, 0, true, true⟩
        (PyData.bytes [1, 2, 3])).trace.count OSCall.startPage = 0 ∧
    (Session.write ⟨"Brother QL-500".toList, none⟩
        ⟨true, 0, true, true, 0, true, true⟩
        (PyData.bytes [1, 2, 3])).trace.count OSCall.writePrinter = 0 ∧
    (Session.write ⟨"Brother QL-500".toList, none⟩
        ⟨true, 0, true, true, 0, true, true⟩
        (PyData.bytes [1, 2, 3])).trace.count OSCall.endPage = 0 ∧
    (Session.write ⟨"Brother QL-500".toList, none⟩
        ⟨true, 0, true, true, 0, true, true⟩
        (PyData.bytes [1, 2, 3])).trace.count OSCall.closePrinter = 0 ∧
    (Session.write ⟨"Brother QL-500".toList, none⟩
        ⟨true, 0, true, true, 0, true, true⟩
        (PyData.bytes [1, 2, 3])).session.hprinter = some () :=
  start_doc_fail_no_further_steps ⟨"Brother QL-500".toList, none⟩
    ⟨true, 0, true, true, 0, true, true⟩ (PyData.bytes [1, 2, 3])
    (Or.inr rfl) ⟨[1, 2, 3], rfl⟩ rfl

/-- C1 counterexample: with a transfer that reports success but accepts
0 of 3 bytes, the write call succeeds instead of failing; and with a
transfer that reports failure (0 of 3 bytes accepted), end-page is not
invoked at all, against the claimed exactly-once invocation. -/
theorem partial_write_counterexample :
    (Session.write ⟨"Brother QL-500".toList, none⟩
        ⟨true, 1, true, true, 0, true, true⟩
        (PyData.bytes [1, 2, 3])).result = Except.ok () ∧
    (0 : Nat) < 3 ∧
    (Session.write ⟨"Brother QL-500".toList, none⟩
        ⟨true, 1, true, false, 0, true, true⟩
        (PyData.bytes [1, 2, 3])).result
      = Except.error (WriteError.writeFailed 0 3) ∧
    (Session.write ⟨"Brother QL-500".toList, none⟩
        ⟨true, 1, true, false, 0, true, true⟩
        (PyData.bytes [1, 2, 3])).trace.count OSCall.endPage = 0 :=
  ⟨rfl, by decide, rfl, rfl⟩

/-- C1 as amended: the write call fails over a short transfer only when
the transfer call itself reports failure; it then raises an error
carrying the accepted and the requested byte counts, end-document is
still invoked exactly once, and end-page is not invoked. -/
theorem transfer_failure_reports_counts (s : Session) (env : WinEnv) (data : PyData)
    (p : List Nat)
    (hopen : s.hprinter = some () ∨ env.openResult = true)
    (hp : toPayload data = Except.ok p)
    (hdoc : env.startDocResult ≠ 0)
    (hpage : env.startPageResult = true)
    (hwr : env.writeResult = false) :
    (Session.write s env data).result
      = Except.error (WriteError.writeFailed env.writtenCount p.length) ∧
    (Session.write s env data).trace.count OSCall.endDoc = 1 ∧
    (Session.write s env data).trace.count OSCall.endPage = 0 := by
  obtain ⟨tr0, h1, h2, h3, h4, h5, h6, heq⟩ := write_eq_writeJob s env data p hopen hp
  rw [heq]
  simp [writeJob, hdoc, hpage, hwr, List.count_append, h4, h5]

/-- Witness for the amended C1: a failing 3-byte transfer with 0 bytes
accepted on a concrete session. -/
theorem transfer_failure_reports_counts_witness :
    (Session.write ⟨"Brother QL-500".toList, none⟩
        ⟨true, 1, true, false, 0, true, true⟩
        (PyData.bytes [1, 2, 3])).result
      = Except.error (WriteError.writeFailed 0 3) ∧
    (Session.write ⟨"Brother QL-500".toList, none⟩
        ⟨true, 1, true, false, 0, true, true⟩
        (PyData.bytes [1, 2, 3])).trace.count OSCall.endDoc = 1 ∧
    (Session.write ⟨"Brother QL-500".toList, none⟩
        ⟨true, 1, true, false, 0, true, true⟩
        (PyData.bytes [1, 2, 3])).trace.count OSCall.endPage = 0 :=
  transfer_failure_reports_counts ⟨"Brother QL-500".toList, none⟩
    ⟨true, 1, true, false, 0, true, true⟩ (PyData.bytes [1, 2, 3]) [1, 2, 3]
    (Or.inr rfl) rfl (by decide) rfl rfl

/-- C2 counterexample: a write call that runs the whole job to
successful completion leaves the handle held: the session does not
return to the idle (no-handle) state. -/
theorem write_keeps_handle_counterexample :
    (Session.write ⟨"Brother QL-500".toList, none⟩
        ⟨true, 1, true, true, 3, true, true⟩
        (PyData.bytes [1, 2, 3])).result = Except.ok () ∧
    (Session.write ⟨"Brother QL-500".toList, none⟩
        ⟨true, 1, true, true, 3, true, true⟩
        (PyData.bytes [1, 2, 3])).session.hprinter ≠ none :=
  ⟨rfl, by decide⟩

/-- The job sequence never touches the session state. -/
theorem writeJob_session (s : Session) (env : WinEnv) (p : List Nat) (tr : List OSCall) :
    (writeJob s env p tr).session = s := by
  unfold writeJob
  split
  · rfl
  · split
    · rfl
    · split
      · rfl
      · rfl

/-- The job sequence never calls `ClosePrinter`. -/
theorem writeJob_no_close (s : Session) (env : WinEnv) (p : List Nat) (tr : List OSCall) :
    (writeJob s env p tr).trace.count OSCall.closePrinter
      = tr.count OSCall.closePrinter := by
  unfold writeJob
  split
  · simp [List.count_append]
  · split
    · simp [List.count_append]
    · split
      · simp [List.count_append]
      · simp [List.count_append]

/-- A write call leaves the session holding a handle. -/
theorem write_session_hprinter (s : Session) (env : WinEnv) (data : PyData) :
    (Session.write s env data).session.hprinter = some () := by
  obtain ⟨pn, hpr⟩ := s
  rcases hpr with _ | ⟨⟩
  · cases hop : env.openResult
    · simp [Session.write, Session.open_printer, hop]
    · cases htp : toPayload data with
      | error e => simp [Session.write, Session.open_printer, hop, htp]
      | ok p => simp [Session.write, Session.open_printer, hop, htp, writeJob_session]
  · cases htp : toPayload data with
    | error e => simp [Session.write, Session.open_printer, htp]
    | ok p => simp [Session.write, Session.open_printer, htp, writeJob_session]

/-- A write call never calls `ClosePrinter`. -/
theorem write_no_close (s : Session) (env : WinEnv) (data : PyData) :
    (Session.write s env data).trace.count OSCall.closePrinter = 0 := by
  obtain ⟨pn, hpr⟩ := s
  rcases hpr with _ | ⟨⟩
  · cases hop : env.openResult
    · simp [Session.write, Session.open_printer, hop]
    · cases htp : toPayload data with
      | error e => simp [Session.write, Session.open_printer, hop, htp]
      | ok p => simp [Session.write, Session.open_printer, hop, htp, writeJob_no_close]
  · cases htp : toPayload data with
    | error e => simp [Session.write, Session.open_printer, htp]
    | ok p => simp [Session.write, Session.open_printer, htp, writeJob_no_close]

/-- C2 as amended: the handle is released on explicit disposal and on
destruction, but a write call, completed or failed, never releases it:
afterwards the session still holds the handle and no close call was
made. -/
theorem handle_release_on_dispose_only (s : Session) (env : WinEnv) (data : PyData) :
    (Session.dispose s).1.hprinter = none ∧
    (Session.del s).1.hprinter = none ∧
    (Session.write s env data).session.hprinter = some () ∧
    (Session.write s env data).trace.count OSCall.closePrinter = 0 := by
  refine ⟨?_, ?_, write_session_hprinter s env data, write_no_close s env data⟩
  · obtain ⟨pn, hpr⟩ := s
    rcases hpr with _ | ⟨⟩ <;> simp [Session.dispose, Session.close_printer]
  · obtain ⟨pn, hpr⟩ := s
    rcases hpr with _ | ⟨⟩ <;> simp [Session.del, Session.dispose, Session.close_printer]

/-- C10: a text payload with a code point above 255 makes the write call
fail with the encoding error before begin-document: no spooler job is
started, no job-transport error is produced, and the handle stays open. -/
theorem high_code_point_fails_before_job (s : Session) (env : WinEnv) (cs : List Nat)
    (hopen : s.hprinter = some () ∨ env.openResult = true)
    (hbad : ∃ c ∈ cs, 256 ≤ c) :
    (Session.write s env (PyData.str cs)).result = Except.error WriteError.encodeError ∧
    (Session.write s env (PyData.str cs)).trace.count OSCall.startDoc = 0 ∧
    (Session.write s env (PyData.str cs)).trace.count OSCall.closePrinter = 0 ∧
    (Session.write s env (PyData.str cs)).session.hprinter = some () := by
  have henc : toPayload (PyData.str cs) = Except.error WriteError.encodeError := by
    obtain ⟨c, hc, hge⟩ := hbad
    have hall : cs.all (fun c => c < 256) = false := by
      rcases hx : cs.all (fun c => c < 256) with _ | _
      · rfl
      · exfalso
        have := List.all_eq_true.mp hx c hc
        simp at this
        omega
    simp [toPayload, encodeLatin1, hall]
  obtain ⟨pn, hpr⟩ := s
  rcases hpr with _ | ⟨⟩
  · have hop : env.openResult = true := by
      rcases hopen with h | h
      · exact absurd h (by simp)
      · exact h
    simp [Session.write, Session.open_printer, hop, henc]
  · simp [Session.write, Session.open_printer, henc]

/-- Witness for C10: the one-character text payload with code point 955
on a concrete open session. -/
theorem high_code_point_fails_before_job_witness :
    (Session.write ⟨"Brother QL-500".toList, some ()⟩
        ⟨true, 1, true, true, 0, true, true⟩
        (PyData.str [955])).result = Except.error WriteError.encodeError ∧
    (Session.write ⟨"Brother QL-500".toList, some ()⟩
        ⟨true, 1, true, true, 0, true, true⟩
        (PyData.str [955])).trace.count OSCall.startDoc = 0 ∧
    (Session.write ⟨"Brother QL-500".toList, some ()⟩
        ⟨true, 1, true, true, 0, true, true⟩
        (PyData.str [955])).trace.count OSCall.closePrinter = 0 ∧
    (Session.write ⟨"Brother QL-500".toList, some ()⟩
        ⟨true, 1, true, true, 0, true, true⟩
        (PyData.str [955])).session.hprinter = some () :=
  high_code_point_fails_before_job ⟨"Brother QL-500".toList, some ()⟩
    ⟨true, 1, true, true, 0, true, true⟩ [955]
    (Or.inl rfl) ⟨955, by decide, by decide⟩

end BrotherQLWin
